import Mathlib

/-!
Verification of the moeviz routing-trace capture pipeline.

Shallow embedding of `src/moeviz/server.py`, `src/moeviz/model_adapters.py`
and `src/moeviz/config.py`.  Tensors of router logits are embedded as
`List (List ℚ)` (rows = tokens, columns = experts); the floating-point
exponential used by `F.softmax` is embedded as an abstract parameter
`e : ℚ → ℚ` that theorems assume strictly monotone and positive, the two
properties of `exp` the selection of expert indices depends on.
-/

namespace Moeviz

/-! ## Softmax and top-k (server.py 133-137, model_adapters.py 127-139) -/

/-- Embeds `F.softmax(router_logits, dim=...)` on one row: weights
`e x / Σ e x` over the expert dimension.  `e` stands for the floating-point
exponential (the `x - max` shift `F.softmax` performs is a numerical-stability
device that does not change the mathematical value). -/
def softmax (e : ℚ → ℚ) (row : List ℚ) : List ℚ :=
  let ws := row.map e
  ws.map (fun w => w / ws.sum)

/-- Insert an (index, value) pair into a list sorted by value descending,
with ties broken by lower index first. -/
def insertIdx (p : ℕ × ℚ) : List (ℕ × ℚ) → List (ℕ × ℚ)
  | [] => [p]
  | q :: qs =>
    if q.2 < p.2 ∨ (p.2 = q.2 ∧ p.1 < q.1) then p :: q :: qs
    else q :: insertIdx p qs

/-- Sort (index, value) pairs by value descending, ties by lower index. -/
def sortIdxPairs (ps : List (ℕ × ℚ)) : List (ℕ × ℚ) :=
  ps.foldr insertIdx []

/-- Embeds the index output of `torch.topk(values, k, dim=-1)` on one row:
the indices of the `k` largest entries, in descending order of value.  On
CPU `torch.topk` resolves ties deterministically in favour of the lower
index, which the sort encodes explicitly.  (`torch.topk` requires
`k ≤ row.length`; the embedding is only used under that side condition.) -/
def topkIdx (k : ℕ) (row : List ℚ) : List ℕ :=
  ((sortIdxPairs row.enum).map Prod.fst).take k

/-- Embeds the module-level `process_router_logits` (server.py 133-137):
softmax over the expert dimension (`dim=1`, i.e. per row of the 2-D input)
followed by `torch.topk(·, top_k, dim=-1)`, returning the selected expert
indices. -/
def process_router_logits (e : ℚ → ℚ) (router_logits : List (List ℚ))
    (top_k : ℕ) : List (List ℕ) :=
  router_logits.map (fun row => topkIdx top_k (softmax e row))

/-! ## Model configuration (config.py 13-32) -/

/-- Embeds one entry of `MODEL_CONFIGS` (config.py). -/
structure ModelConfig where
  name : String
  expert_count : ℕ
  path : String
  model_type : String
  router_type : String
  router_location : String
  top_k : ℕ
deriving DecidableEq, Repr

/-- Embeds `MODEL_CONFIGS` (config.py 13-32). -/
def MODEL_CONFIGS : List (String × ModelConfig) :=
  [("qwen-1.5-moe-a2.7b",
    { name := "Qwen1.5-MoE-A2.7B"
      expert_count := 60
      path := "Qwen/Qwen1.5-MoE-A2.7B"
      model_type := "qwen"
      router_type := "gate"
      router_location := "model.layers[{layer_id}].mlp.gate"
      top_k := 4 }),
   ("mixtral-8x7b",
    { name := "Mixtral-8x7B"
      expert_count := 8
      path := "mistralai/Mixtral-8x7B-v0.1"
      model_type := "mixtral"
      router_type := "router"
      router_location := "model.layers[{layer_id}].block_sparse_moe.gate"
      top_k := 2 })]

/-! ## Model adapters (model_adapters.py) -/

/-- Embeds the state of a `ModelAdapter` instance (model_adapters.py 11-19):
`self.top_k = config.get('top_k', 2)`, `self.model_type =
config.get('model_type', 'unknown')`. -/
structure ModelAdapter where
  top_k : ℕ
  model_type : String
deriving DecidableEq, Repr

/-- Embeds `ModelAdapter.__init__` applied to a full `MODEL_CONFIGS` entry
(both keys are present, so the `.get` defaults 2 / 'unknown' are not used). -/
def ModelAdapter.ofConfig (config : ModelConfig) : ModelAdapter :=
  { top_k := config.top_k, model_type := config.model_type }

/-- Embeds the method `ModelAdapter.process_router_logits`
(model_adapters.py 127-139): softmax with `dim=-1` — the same per-row
direction as `dim=1` on a 2-D input — then `torch.topk(·, self.top_k,
dim=-1)`. -/
def ModelAdapter.process_router_logits (a : ModelAdapter) (e : ℚ → ℚ)
    (router_logits : List (List ℚ)) : List (List ℕ) :=
  router_logits.map (fun row => topkIdx a.top_k (softmax e row))

/-- A computable strictly monotone, everywhere-positive function on ℚ,
standing in for the exponential when theorems are instantiated. -/
def posMono (x : ℚ) : ℚ :=
  if 0 ≤ x then x + 1 else 1 / (1 - x)

/-! ## Path resolver (model_adapters.py 33-93)

A Python module hierarchy is embedded as a rose tree of objects with named
attributes and indexable items; `getattr` failure and index errors are
embedded as `none`. -/

/-- A Python object as the resolver sees it: a tag naming it, named
attributes, and indexable items. -/
inductive PyObj where
  | node (tag : String) (attrs : List (String × PyObj)) (items : List PyObj)

/-- The tag of an object (used to identify resolution results). -/
def PyObj.tag : PyObj → String
  | PyObj.node t _ _ => t

/-- Embeds Python `getattr(obj, name)`: `none` embeds `AttributeError`. -/
def getattr : PyObj → String → Option PyObj
  | PyObj.node _ attrs _, name => attrs.lookup name

/-- Embeds Python `obj[i]` on a list-like module container, including
negative indexing; `none` embeds `IndexError`. -/
def getitem : PyObj → ℤ → Option PyObj
  | PyObj.node _ _ items, i =>
    let j := if i < 0 then i + items.length else i
    if 0 ≤ j then items.get? j.toNat else none

/-- One access step produced by the path scan of `resolve_module_path`:
a named attribute (a string part) or a bracketed index (the
`lambda obj, idx=index: obj[idx]` closure the source appends). -/
inductive Part where
  | attr (s : String)
  | index (i : ℤ)
deriving DecidableEq, Repr

/-- Split a character string at every `+`, as the first step of the
`eval` fragment below. -/
def splitPlusAux : List Char → List Char → List (List Char)
  | [], acc => [acc]
  | c :: rest, acc =>
    if c = '+' then acc :: splitPlusAux rest []
    else splitPlusAux rest (acc ++ [c])

/-- Numeric value of a digit string. -/
def digitsVal (cs : List Char) : ℕ :=
  cs.foldl (fun n c => 10 * n + (c.toNat - '0'.toNat)) 0

/-- CPython's leading-zero rule for decimal integer literals: a literal
may start with `0` only if it consists of zeros entirely (`0`, `00` are
valid and denote 0; `01`, `007` are a SyntaxError). -/
def noLeadingZero (cs : List Char) : Bool :=
  if cs.head? = some '0' then cs.all (fun c => c = '0') else true

/-- A valid non-negative Python decimal integer literal: non-empty, all
digits, and respecting CPython's leading-zero rule.  This is both the
spec's restriction on bracket contents and the literal grammar of the
`eval` fragment below. -/
def nonNegIntLiteral (cs : List Char) : Bool :=
  !cs.isEmpty && cs.all Char.isDigit && noLeadingZero cs

/-- One summand of the `eval` fragment: a decimal integer literal with an
optional single unary minus (`eval` accepts `-1`); anything else —
including literals with misleading leading zeros, which `eval` rejects
with a SyntaxError — fails. -/
def pieceVal (cs : List Char) : Option ℤ :=
  if cs.head? = some '-' then
    if nonNegIntLiteral (cs.drop 1) then
      some (-((digitsVal (cs.drop 1) : ℕ) : ℤ))
    else none
  else
    if nonNegIntLiteral cs then some ((digitsVal cs : ℕ) : ℤ)
    else none

/-- Sum the summands; any invalid summand fails the whole evaluation. -/
def sumPieces : List (List Char) → Option ℤ
  | [] => some 0
  | p :: ps =>
    match pieceVal p, sumPieces ps with
    | some v, some s => some (v + s)
    | _, _ => none

/-- Embeds the fragment of the Python builtin `eval` that the bracket
contents of this code base exercise: `+`-separated sums of decimal
integer literals, each optionally preceded by one unary minus (`"2"`
evaluates to 2, `"1+1"` evaluates to 2, `"-1"` to -1).  Following
CPython, digit strings with misleading leading zeros (`"01"`, `"007"`)
are a SyntaxError (`none`).  The real `eval` accepts arbitrary Python
expressions; inputs outside this fragment (other operators, stacked
unary signs, whitespace, names) are not modelled and no theorem
instantiates the embedding on them. -/
def pyEval (cs : List Char) : Option ℤ :=
  sumPieces (splitPlusAux cs [])

/-- Embeds the inner scan of `resolve_module_path` (model_adapters.py
53-67): find the matching `]` for an opening bracket, returning the
content before it and the remainder after it; `none` when no closing
bracket exists. -/
def splitAtClose : List Char → Option (List Char × List Char)
  | [] => none
  | c :: rest =>
    if c = ']' then some ([], rest)
    else (fun p => (c :: p.1, p.2)) <$> splitAtClose rest

/-- Embeds the character-scanning loop of `resolve_module_path`
(model_adapters.py 44-78) for a path containing brackets: build the list
of access steps, flushing the pending attribute name at each `.` or `[`;
bracket contents are passed to `eval` (embedded by `pyEval`) during the
scan, an evaluation failure aborting resolution; an unmatched `[` is
treated as an ordinary character.  The recursion is driven by a fuel
bound mirroring the source's loop index `i`: each iteration consumes at
least one character, so `cs.length + 1` fuel (supplied by
`resolve_module_path`) always suffices. -/
def scanPath : ℕ → List Char → String → Option (List Part)
  | _, [], current => some (if current = "" then [] else [Part.attr current])
  | 0, _ :: _, _ => none
  | fuel + 1, c :: rest, current =>
    if c = '[' then
      match splitAtClose rest with
      | some (content, rem) =>
        match pyEval content with
        | some idx =>
          (fun tail =>
            (if current = "" then [] else [Part.attr current]) ++
              Part.index idx :: tail) <$> scanPath fuel rem ""
        | none => none
      | none => scanPath fuel rest (current.push '[')
    else if c = '.' then
      (fun tail => (if current = "" then [] else [Part.attr current]) ++ tail)
        <$> scanPath fuel rest ""
    else scanPath fuel rest (current.push c)

/-- Embeds Python `str.split('.')` (model_adapters.py 91). -/
def splitDot : List Char → String → List String
  | [], current => [current]
  | c :: rest, current =>
    if c = '.' then current :: splitDot rest ""
    else splitDot rest (current.push c)

/-- Apply one access step (a getattr for string parts, the indexing
closure for bracket parts — model_adapters.py 82-86). -/
def applyPart (o : PyObj) : Part → Option PyObj
  | Part.attr s => getattr o s
  | Part.index i => getitem o i

/-- Fold the access steps over the model object
(model_adapters.py 81-87 and 90-93). -/
def resolveParts (o : PyObj) : List Part → Option PyObj
  | [] => some o
  | p :: ps => (applyPart o p).bind (fun o' => resolveParts o' ps)

/-- Embeds `ModelAdapter.resolve_module_path` (model_adapters.py 33-93):
when the path contains both `[` and `]`, scan it into parts — evaluating
every bracket content with `eval` — and fold them over the model；
otherwise split on dots and fold plain attribute accesses. -/
def resolve_module_path (model : PyObj) (path : String) : Option PyObj :=
  if path.toList.contains '[' && path.toList.contains ']' then
    (scanPath (path.toList.length + 1) path.toList "").bind (resolveParts model)
  else
    resolveParts model ((splitDot path.toList "").map Part.attr)

/-- A concrete model hierarchy exposing `layers[0..2]`, where layer 2 has
an `mlp.gate` submodule. -/
def demoModel : PyObj :=
  PyObj.node "model"
    [("layers", PyObj.node "layers" []
      [PyObj.node "layer0" [] [],
       PyObj.node "layer1" [] [],
       PyObj.node "layer2"
         [("mlp", PyObj.node "mlp"
           [("gate", PyObj.node "gate" [] [])] [])] []])]
    []

/-! ## Server capture pipeline (server.py)

The two module-level queues `tokens_queue` and `routing_queue`, the socket
emission stream, and the set of attached hook handles are the mutable state
the handler and the hooks act on.  A tokenizer is embedded as a partial
decoding function `ℤ → Option String` (`none` embeds `tokenizer.decode`
raising). -/

/-- Result of `input[0].clone().detach().cpu().squeeze().tolist()` in the
token hook (server.py 143): either a Python scalar (a 1-element tensor
squeezed away) or a list of token ids. -/
inductive Squeezed where
  | scalar (z : ℤ)
  | list (zs : List ℤ)
deriving DecidableEq, Repr

/-- Embeds server.py 144-146: `if not isinstance(tokens, list): tokens =
[tokens]`. -/
def ensure_list : Squeezed → List ℤ
  | Squeezed.scalar z => [z]
  | Squeezed.list zs => zs

/-- Embeds the per-token decode loop (server.py 103-117): each id is decoded
by the tokenizer; a decode failure degrades to the placeholder
`[ERROR:<id>]` instead of raising. -/
def decode_tokens (dec : ℤ → Option String) (ts : List ℤ) : List String :=
  ts.map (fun t =>
    match dec t with
    | some s => s
    | none => "[ERROR:" ++ toString t ++ "]")

/-- Embeds the `routing_data` dict the router hook builds
(server.py 94-98, 119): keys `layer_id`, `tokens`, `selected_experts`, and
`decoded_tokens` when a tokenizer is available. -/
structure RoutingData where
  layer_id : ℕ
  tokens : List ℤ
  selected_experts : List (List ℕ)
  decoded_tokens : Option (List String)
deriving DecidableEq, Repr

/-- The keys present in the emitted `routing_data` dict: the three literal
keys of the dict display (server.py 94-98) plus `decoded_tokens` exactly
when the decode branch ran (server.py 119). -/
def RoutingData.keys (d : RoutingData) : List String :=
  ["layer_id", "tokens", "selected_experts"] ++
    (match d.decoded_tokens with
     | some _ => ["decoded_tokens"]
     | none => [])

/-- Messages emitted on the socket stream: `routing_update` events from the
relay loop (server.py 52) and the terminal `generation_complete`
(server.py 203). -/
inductive Msg where
  | routing_update (d : RoutingData)
  | generation_complete
deriving DecidableEq, Repr

/-- The two forward hooks `generate_text` registers (server.py 175-176). -/
inductive HookKind where
  | token
  | router
deriving DecidableEq, Repr

/-- The module-level mutable state of server.py: the two queues
(lines 45-46), the stream of socket emissions, and the hooks currently
attached to the model. -/
structure ServerState where
  tokens_queue : List (List ℤ)
  routing_queue : List RoutingData
  emitted : List Msg
  attached : List HookKind
deriving DecidableEq, Repr

/-- The state at server start: both queues empty, nothing emitted, no hooks
attached. -/
def initState : ServerState :=
  { tokens_queue := [], routing_queue := [], emitted := [], attached := [] }

/-- Embeds the hook returned by `get_token` (server.py 140-149): normalize
the captured input ids to a list and push them onto `tokens_queue`. -/
def get_token_hook (input : Squeezed) (st : ServerState) : ServerState :=
  { st with tokens_queue := st.tokens_queue ++ [ensure_list input] }

/-- Embeds the hook returned by `get_experts layer_id` (server.py 88-131):
compute the selected experts with the hard-coded `top_k=4`, then
`tokens_queue.get()` — which on an empty queue blocks forever (embedded as
`none`: the hook call never returns).  Otherwise the oldest token batch is
popped, paired with the routing decision, optionally decorated with decoded
tokens, and the record is pushed onto `routing_queue`. -/
def get_experts_hook (e : ℚ → ℚ) (tok : Option (ℤ → Option String))
    (layer_id : ℕ) (output : List (List ℚ)) (st : ServerState) :
    Option ServerState :=
  let selected := process_router_logits e output 4
  match st.tokens_queue with
  | [] => none
  | ts :: rest =>
    let rd : RoutingData :=
      { layer_id := layer_id
        tokens := ts
        selected_experts := selected
        decoded_tokens := tok.map (fun dec => decode_tokens dec ts) }
    some { st with tokens_queue := rest
                   routing_queue := st.routing_queue ++ [rd] }

/-- One forward step of the instrumented model: the token-entry pre-hook on
`embed_tokens` fires first, then the router hook on the monitored layer's
gate fires on that step's router output (the call-order guarantee of the
model family). -/
structure ForwardStep where
  input : Squeezed
  router_output : List (List ℚ)

/-- Run one forward step through both hooks. -/
def forward_step (e : ℚ → ℚ) (tok : Option (ℤ → Option String))
    (layer_id : ℕ) (fs : ForwardStep) (st : ServerState) :
    Option ServerState :=
  get_experts_hook e tok layer_id fs.router_output (get_token_hook fs.input st)

/-- Run a sequence of forward steps; `none` as soon as a router hook
blocks. -/
def run_steps (e : ℚ → ℚ) (tok : Option (ℤ → Option String))
    (layer_id : ℕ) : List ForwardStep → ServerState → Option ServerState
  | [], st => some st
  | fs :: rest, st =>
    (forward_step e tok layer_id fs st).bind (run_steps e tok layer_id rest)

/-- Embeds one poll iteration of `process_routing_queue` (server.py 48-53):
if `routing_queue` is non-empty, pop one record and emit it as a
`routing_update`; otherwise do nothing until the next tick. -/
def relay_step (st : ServerState) : ServerState :=
  match st.routing_queue with
  | [] => st
  | d :: rest =>
    { st with routing_queue := rest
              emitted := st.emitted ++ [Msg.routing_update d] }

/-- `n` poll iterations of the relay loop. -/
def relay_run : ℕ → ServerState → ServerState
  | 0, st => st
  | n + 1, st => relay_run n (relay_step st)

/-- Errors a `/generate` request can surface: the `ValueError` raised by
`load_model` for an unknown model id (server.py 68); the `TypeError` from
unpacking `load_model`'s `None` return when loading failed (server.py
167, 85); the `AttributeError` from resolving the hard-coded hook path on
a model that does not expose it (server.py 175-176); or an exception
propagating out of the external `model.generate` call (server.py 191). -/
inductive ServerErr where
  | valueError (model_id : String)
  | typeError
  | attributeError
  | generationError
deriving DecidableEq, Repr

/-- Embeds the start phase of `generate_text` (server.py 160-176):
`tokens_queue.empty()` — `Queue.empty()` only reports emptiness; its Bool
result is discarded and nothing is cleared — then `load_model` (an unknown
model id raises `ValueError` before anything is installed; a failed load
returns `None`, embedded as `loaded = none`, and the tuple unpacking then
raises `TypeError`), then hook registration in source order: line 175
resolves `model.model.embed_tokens` and attaches the token pre-hook; line
176 resolves the hard-coded `model.model.layers[0].mlp.gate` and attaches
the router hook — on a model without that attribute chain (Mixtral's
router lives at `block_sparse_moe.gate` per config.py) the resolution
raises `AttributeError`, leaving only the token hook attached.  There is
no check for an already-active session.  The result is the updated global
state and the error surfaced, if any. -/
def generate_start (model_id : String) (loaded : Option PyObj)
    (st : ServerState) : ServerState × Option ServerErr :=
  let _residual_check := st.tokens_queue.isEmpty
  if (MODEL_CONFIGS.lookup model_id).isSome then
    match loaded with
    | none => (st, some ServerErr.typeError)
    | some model =>
      match resolveParts model [Part.attr "model", Part.attr "embed_tokens"] with
      | none => (st, some ServerErr.attributeError)
      | some _ =>
        let st1 := { st with attached := st.attached ++ [HookKind.token] }
        match resolveParts model [Part.attr "model", Part.attr "layers",
            Part.index 0, Part.attr "mlp", Part.attr "gate"] with
        | none => (st1, some ServerErr.attributeError)
        | some _ =>
          ({ st1 with attached := st1.attached ++ [HookKind.router] }, none)
  else (st, some (ServerErr.valueError model_id))

/-- Embeds the handler `generate_text` (server.py 160-208) as run on the
handler's own task, with the relay task idle in between (one legal
schedule of the time-driven 1 ms polling loop).  The external
`model.generate` call is parameterized by the forward steps it performs and
by whether it raises (`genRaises`).  On success the handler emits
`generation_complete` and then removes both hooks; when `model.generate`
raises, the exception propagates out of the handler before the
`token_hook.remove()` / `router_hook.remove()` lines are reached, so both
hooks stay attached.  The outer `none` embeds a router hook blocking
forever inside generation. -/
def generate_text (e : ℚ → ℚ) (tok : Option (ℤ → Option String))
    (model_id : String) (loaded : Option PyObj) (steps : List ForwardStep)
    (genRaises : Bool) (st : ServerState) :
    Option (ServerState × Option ServerErr) :=
  let start := generate_start model_id loaded st
  match start.2 with
  | some err => some (start.1, some err)
  | none =>
    match run_steps e tok 0 steps start.1 with
    | none => none
    | some st2 =>
      if genRaises then
        some (st2, some ServerErr.generationError)
      else
        let st3 := { st2 with emitted := st2.emitted ++ [Msg.generation_complete] }
        let st4 := { st3 with
          attached := (st3.attached.erase HookKind.token).erase HookKind.router }
        some (st4, none)

/-! ## Concrete fixtures for witnesses and counterexamples -/

/-- One concrete forward step: token batch `[5]`, one router row. -/
def step1 : ForwardStep :=
  { input := Squeezed.list [5], router_output := [[2, 1, 1/2, 1/10]] }

/-- A state with one pending token batch `[7]`. -/
def stOne : ServerState :=
  { tokens_queue := [[7]], routing_queue := [], emitted := [], attached := [] }

/-- A state in which a session is active: its two probes are attached. -/
def stBusy : ServerState :=
  { tokens_queue := [], routing_queue := [], emitted := [],
    attached := [HookKind.token, HookKind.router] }

/-- A state holding a residual token batch left over from a prior session. -/
def stResidual : ServerState :=
  { tokens_queue := [[5]], routing_queue := [], emitted := [], attached := [] }

/-- A concrete routing record. -/
def rdW : RoutingData :=
  { layer_id := 0, tokens := [5], selected_experts := [[0, 1]],
    decoded_tokens := none }

/-- A state with one routing record still queued for the relay. -/
def stQ : ServerState :=
  { tokens_queue := [], routing_queue := [rdW], emitted := [], attached := [] }

/-- A Qwen-shaped model hierarchy: `model.embed_tokens` and
`model.layers[0].mlp.gate` both exist, as the hard-coded hook paths of
server.py 175-176 expect. -/
def qwenModel : PyObj :=
  PyObj.node "qwen"
    [("model", PyObj.node "qwen.model"
      [("embed_tokens", PyObj.node "embed_tokens" [] []),
       ("layers", PyObj.node "layers" []
         [PyObj.node "layer0"
           [("mlp", PyObj.node "mlp"
             [("gate", PyObj.node "qwen.gate" [] [])] [])] []])] [])]
    []

/-- A Mixtral-shaped model hierarchy: `model.embed_tokens` exists, but the
layer's router lives at `block_sparse_moe.gate` (config.py 29) and there
is no `mlp` attribute, so the hard-coded `layers[0].mlp.gate` hook path
fails on it. -/
def mixtralModel : PyObj :=
  PyObj.node "mixtral"
    [("model", PyObj.node "mixtral.model"
      [("embed_tokens", PyObj.node "embed_tokens" [] []),
       ("layers", PyObj.node "layers" []
         [PyObj.node "layer0"
           [("block_sparse_moe", PyObj.node "block_sparse_moe"
             [("gate", PyObj.node "mixtral.gate" [] [])] [])] []])] [])]
    []

/-- The routing record one paired forward step produces. -/
def stepRecord (e : ℚ → ℚ) (tok : Option (ℤ → Option String))
    (layer_id : ℕ) (fs : ForwardStep) : RoutingData :=
  { layer_id := layer_id
    tokens := ensure_list fs.input
    selected_experts := process_router_logits e fs.router_output 4
    decoded_tokens := tok.map (fun dec => decode_tokens dec (ensure_list fs.input)) }

/-! ## Properties of the exponential stand-in -/

theorem posMono_pos (x : ℚ) : 0 < posMono x := by
  unfold posMono
  split_ifs with h
  · linarith
  · have h1 : (0 : ℚ) < 1 - x := by linarith
    positivity

theorem posMono_strictMono : StrictMono posMono := by
  intro x y hxy
  unfold posMono
  split_ifs with hx hy hy
  · linarith
  · exact absurd (le_trans hx hxy.le) hy
  · have h1 : (1 : ℚ) < 1 - x := by linarith
    have h2 : 1 / (1 - x) < 1 := by
      rw [div_lt_one (by linarith)]
      exact h1
    linarith
  · have h1 : (0 : ℚ) < 1 - y := by linarith
    have h2 : 1 - y < 1 - x := by linarith
    exact one_div_lt_one_div_of_lt h1 h2

/-! ## Helper lemmas about `topkIdx` -/

theorem insertIdx_length (p : ℕ × ℚ) (ps : List (ℕ × ℚ)) :
    (insertIdx p ps).length = ps.length + 1 := by
  induction ps with
  | nil => rfl
  | cons q qs ih =>
    unfold insertIdx
    split_ifs <;> simp [ih]

theorem sortIdxPairs_length (ps : List (ℕ × ℚ)) :
    (sortIdxPairs ps).length = ps.length := by
  induction ps with
  | nil => rfl
  | cons p ps ih =>
    unfold sortIdxPairs at *
    simp [insertIdx_length, ih]

theorem topkIdx_length (k : ℕ) (row : List ℚ) :
    (topkIdx k row).length = min k row.length := by
  unfold topkIdx
  simp [sortIdxPairs_length]

theorem softmax_length (e : ℚ → ℚ) (row : List ℚ) :
    (softmax e row).length = row.length := by
  unfold softmax
  simp

/-- Top-2 of a four-element row with strictly descending values is `[0, 1]`. -/
theorem topkIdx_two_desc (a b c d : ℚ) (hab : b < a) (hbc : c < b)
    (hcd : d < c) : topkIdx 2 [a, b, c, d] = [0, 1] := by
  simp [topkIdx, sortIdxPairs, insertIdx, List.enum, hab, hbc, hcd]

/-- Top-2 of a four-element all-equal row is `[0, 1]`: ties go to the
lower index. -/
theorem topkIdx_two_const (c : ℚ) : topkIdx 2 [c, c, c, c] = [0, 1] := by
  simp [topkIdx, sortIdxPairs, insertIdx, List.enum, lt_irrefl]

/-- Shared capture lemma: from an empty pending-token queue, a sequence of
paired forward steps always succeeds and appends exactly one routing
record per step, in firing order, leaving the pending queue empty. -/
theorem run_steps_emits (e : ℚ → ℚ) (tok : Option (ℤ → Option String))
    (steps : List ForwardStep) (st : ServerState)
    (h : st.tokens_queue = []) :
    run_steps e tok 0 steps st =
      some { st with
        routing_queue := st.routing_queue ++ steps.map (stepRecord e tok 0) } := by
  induction steps generalizing st with
  | nil => simp [run_steps]
  | cons fs rest ih =>
    simp only [run_steps, forward_step, get_token_hook, get_experts_hook, h,
      List.nil_append, Option.bind]
    rw [ih _ rfl]
    simp [stepRecord, List.append_assoc]

/-! ## Claim theorems: normalization -/

/-- C6: the router-logit normalization applied to logits
`[2.0, 1.0, 0.5, 0.1]` with k = 2 yields expert indices `[0, 1]` in that
order, and applied to all-equal logits `[1, 1, 1, 1]` with k = 2 also
yields `[0, 1]` (ties broken by lowest expert index).  The embedding is a
pure function, so repeated calls give the same result (determinism).  The
result holds for every strictly monotone positive embedding `e` of the
floating-point exponential. -/
theorem C6_normalize_router_output (e : ℚ → ℚ) (hmono : StrictMono e)
    (hpos : ∀ x, 0 < e x) :
    process_router_logits e [[2, 1, 1/2, 1/10]] 2 = [[0, 1]] ∧
    process_router_logits e [[1, 1, 1, 1]] 2 = [[0, 1]] := by
  constructor
  · have hs : (0 : ℚ) < e 2 + (e 1 + (e (1/2) + (e (1/10) + 0))) := by
      have := hpos 2; have := hpos 1; have := hpos (1/2); have := hpos (1/10)
      linarith
    have h21 : e 1 < e 2 := hmono (by norm_num)
    have h12 : e (1/2) < e 1 := hmono (by norm_num)
    have h1210 : e (1/10) < e (1/2) := hmono (by norm_num)
    simp only [process_router_logits, softmax, List.map_cons, List.map_nil,
      List.sum_cons, List.sum_nil]
    rw [topkIdx_two_desc _ _ _ _ ((div_lt_div_iff_of_pos_right hs).mpr h21)
      ((div_lt_div_iff_of_pos_right hs).mpr h12)
      ((div_lt_div_iff_of_pos_right hs).mpr h1210)]
  · simp only [process_router_logits, softmax, List.map_cons, List.map_nil,
      List.sum_cons, List.sum_nil]
    rw [topkIdx_two_const]

/-- Witness for C6 at the concrete exponential stand-in `posMono`. -/
theorem C6_normalize_router_output_witness :
    StrictMono posMono ∧ (∀ x, 0 < posMono x) ∧
    (process_router_logits posMono [[2, 1, 1/2, 1/10]] 2 = [[0, 1]] ∧
     process_router_logits posMono [[1, 1, 1, 1]] 2 = [[0, 1]]) :=
  ⟨posMono_strictMono, posMono_pos,
   C6_normalize_router_output posMono posMono_strictMono posMono_pos⟩

/-- C10: the module-level `process_router_logits` in the server and the
method `ModelAdapter.process_router_logits` compute the same
selected-expert indices for every two-dimensional logits input and every
k (with the adapter's `top_k` set to that k): on a 2-D input the server's
`dim=1` softmax and the adapter's `dim=-1` softmax act on the same (row)
dimension, and both follow it with the same `torch.topk` selection. -/
theorem C10_server_adapter_equiv (e : ℚ → ℚ) (logits : List (List ℚ))
    (k : ℕ) (mt : String) :
    process_router_logits e logits k =
      (ModelAdapter.mk k mt).process_router_logits e logits := rfl

/-! ## Claim theorems: path resolver -/

set_option maxHeartbeats 2000000

/-- C2 counterexample: the bracket content `1+1` is not a non-negative
integer literal, yet the resolver accepts the path `layers[1+1].mlp.gate`:
the content is handed to `eval`, which evaluates the expression to 2, and
resolution succeeds at index 2 — bracket contents are evaluated as code,
not restricted to integer literals. -/
theorem C2_counterexample :
    nonNegIntLiteral ("1+1".toList) = false ∧
    pyEval ("1+1".toList) = some 2 ∧
    (resolve_module_path demoModel "layers[1+1].mlp.gate").map PyObj.tag =
      some "gate" := by
  refine ⟨by decide, by decide, ?_⟩
  decide

/-- C2 amended: the resolver evaluates bracket contents as expressions
rather than restricting them to literals: every non-negative integer
literal is accepted and denotes its numeric value, but non-literal
expressions such as `1+1` are evaluated and accepted too — the path
`layers[1+1].mlp.gate` resolves to the same module as `layers[2].mlp.gate`. -/
theorem C2_bracket_eval (cs : List Char) (h : nonNegIntLiteral cs = true) :
    pyEval cs = some ((digitsVal cs : ℕ) : ℤ) ∧
    (resolve_module_path demoModel "layers[1+1].mlp.gate").map PyObj.tag =
      (resolve_module_path demoModel "layers[2].mlp.gate").map PyObj.tag ∧
    (resolve_module_path demoModel "layers[2].mlp.gate").map PyObj.tag =
      some "gate" := by
  constructor
  · have hdig : ∀ c ∈ cs, c.isDigit = true := by
      intro c hc
      have hh := h
      simp only [nonNegIntLiteral, Bool.and_eq_true, List.all_eq_true] at hh
      exact hh.1.2 c hc
    have hnoplus : ∀ (l : List Char), (∀ c ∈ l, c.isDigit = true) →
        ∀ acc, splitPlusAux l acc = [acc ++ l] := by
      intro l
      induction l with
      | nil => intro _ acc; simp [splitPlusAux]
      | cons c rest ih =>
        intro hd acc
        have hc : ¬ c = '+' := by
          intro hplus
          have hcd := hd c (by simp)
          rw [hplus] at hcd
          exact absurd hcd (by decide)
        simp only [splitPlusAux, if_neg hc]
        rw [ih (fun x hx => hd x (List.mem_cons_of_mem _ hx)) (acc ++ [c])]
        simp
    have hhead : ¬ cs.head? = some '-' := by
      cases cs with
      | nil => simp
      | cons c rest =>
        simp only [List.head?, Option.some.injEq]
        intro hc
        have hcd := hdig c (by simp)
        rw [hc] at hcd
        exact absurd hcd (by decide)
    have hpiece : pieceVal cs = some ((digitsVal cs : ℕ) : ℤ) := by
      unfold pieceVal
      rw [if_neg hhead, if_pos h]
    unfold pyEval
    rw [hnoplus cs hdig []]
    simp [sumPieces, hpiece]
  · exact ⟨by decide, by decide⟩

/-- Witness for C2 at the literal `2`. -/
theorem C2_bracket_eval_witness :
    nonNegIntLiteral ("2".toList) = true ∧
    (pyEval ("2".toList) = some ((digitsVal ("2".toList) : ℕ) : ℤ) ∧
     (resolve_module_path demoModel "layers[1+1].mlp.gate").map PyObj.tag =
       (resolve_module_path demoModel "layers[2].mlp.gate").map PyObj.tag ∧
     (resolve_module_path demoModel "layers[2].mlp.gate").map PyObj.tag =
       some "gate") :=
  ⟨by decide, C2_bracket_eval ("2".toList) (by decide)⟩

/-! ## Claim theorems: capture pipeline -/

/-- C1 counterexample: in a session of N = 1 forward step with one
token-entry capture and one router capture, the single emitted routing
record carries only the keys `layer_id`, `tokens`, `selected_experts` —
there is no `sequence_index` field at all, so the claim that every record
carries a `sequence_index` with values 0..N-1 is false. -/
theorem C1_counterexample :
    (run_steps posMono none 0 [step1] initState).map
        (fun st => st.routing_queue.map RoutingData.keys) =
      some [["layer_id", "tokens", "selected_experts"]] ∧
    "sequence_index" ∉ ["layer_id", "tokens", "selected_experts"] := by
  exact ⟨rfl, by decide⟩

/-- C1 amended: for every session that starts with an empty pending-token
queue and runs N forward steps, each firing one token-entry capture then
one router capture, the routing queue gains exactly N records, one per
step and in firing order, each pairing that step's token batch with its
routing decision; and no routing record carries a `sequence_index` key
(ordering is implicit in the FIFO queue, not tracked by an index). -/
theorem C1_stream_has_n_records (e : ℚ → ℚ)
    (tok : Option (ℤ → Option String)) (steps : List ForwardStep)
    (st : ServerState) (h : st.tokens_queue = []) :
    run_steps e tok 0 steps st =
      some { st with
        routing_queue := st.routing_queue ++ steps.map (stepRecord e tok 0) } ∧
    ∀ d : RoutingData, "sequence_index" ∉ RoutingData.keys d := by
  constructor
  · exact run_steps_emits e tok steps st h
  · intro d
    cases hd : d.decoded_tokens <;>
      · simp only [RoutingData.keys, hd]
        decide

/-- Witness for C1 at a concrete one-step session. -/
theorem C1_stream_has_n_records_witness :
    initState.tokens_queue = [] ∧
    (run_steps posMono none 0 [step1] initState =
      some { initState with
        routing_queue := initState.routing_queue ++
          [step1].map (stepRecord posMono none 0) } ∧
    ∀ d : RoutingData, "sequence_index" ∉ RoutingData.keys d) :=
  ⟨rfl, C1_stream_has_n_records posMono none [step1] initState rfl⟩

/-- C3 counterexample: when the router hook fires while the pending-token
queue is empty, `tokens_queue.get()` blocks forever — the hook call never
returns (`none`), no `UnpairedRoutingError` exists anywhere in the code to
be recorded, and the session does not continue past the blocked firing.
This refutes the claim that the probe records one error and returns
without blocking. -/
theorem C3_counterexample :
    initState.tokens_queue = [] ∧
    get_experts_hook posMono none 0 [[1, 1, 1, 1]] initState = none :=
  ⟨rfl, rfl⟩

/-- C3 amended: when the router hook fires with an empty pending-token
queue it blocks on `tokens_queue.get()` and never returns (no error is
recorded and no routing event is emitted for that firing); when the queue
is non-empty it pops the oldest token batch and appends exactly one
routing record pairing it with the routing decision. -/
theorem C3_unpaired_capture_blocks (e : ℚ → ℚ)
    (tok : Option (ℤ → Option String)) (lid : ℕ) (out : List (List ℚ))
    (st : ServerState) :
    (st.tokens_queue = [] → get_experts_hook e tok lid out st = none) ∧
    ∀ ts rest, st.tokens_queue = ts :: rest →
      get_experts_hook e tok lid out st = some { st with
        tokens_queue := rest
        routing_queue := st.routing_queue ++
          [{ layer_id := lid
             tokens := ts
             selected_experts := process_router_logits e out 4
             decoded_tokens := tok.map (fun dec => decode_tokens dec ts) }] } := by
  constructor
  · intro h
    simp [get_experts_hook, h]
  · intro ts rest h
    simp [get_experts_hook, h]

/-- Witness for C3: the hook blocks on an empty queue and pairs normally on
a non-empty one. -/
theorem C3_unpaired_capture_blocks_witness :
    (initState.tokens_queue = [] ∧
     get_experts_hook posMono none 0 [[1, 1, 1, 1]] initState = none) ∧
    (stOne.tokens_queue = [7] :: [] ∧
     get_experts_hook posMono none 0 [[1, 1, 1, 1]] stOne = some { stOne with
       tokens_queue := []
       routing_queue := stOne.routing_queue ++
         [{ layer_id := 0
            tokens := [7]
            selected_experts := process_router_logits posMono [[1, 1, 1, 1]] 4
            decoded_tokens := none }] }) :=
  ⟨⟨rfl, (C3_unpaired_capture_blocks posMono none 0 [[1, 1, 1, 1]] initState).1 rfl⟩,
   ⟨rfl, (C3_unpaired_capture_blocks posMono none 0 [[1, 1, 1, 1]] stOne).2 [7] [] rfl⟩⟩

/-- C4: when the external `model.generate` call raises, the handler
propagates the error without reaching the `token_hook.remove()` /
`router_hook.remove()` lines, so both probes are still attached when the
error surfaces — the code contradicts the unconditional-teardown claim. -/
theorem C4_hooks_leak_on_failure :
    (generate_text posMono none "qwen-1.5-moe-a2.7b" (some qwenModel) [step1]
        true initState).map
        (fun p => (p.1.attached, p.2)) =
      some ([HookKind.token, HookKind.router],
            some ServerErr.generationError) := rfl

/-- C5 counterexample: a successful one-step session ends with
`generation_complete` already emitted while the routing record of the step
is still sitting undelivered in `routing_queue` — the handler emits the
completion marker without waiting for the relay to drain the queue. -/
theorem C5_counterexample :
    (generate_text posMono none "qwen-1.5-moe-a2.7b" (some qwenModel) [step1]
        false initState).map
        (fun p => (p.1.emitted, p.1.routing_queue.length, p.2)) =
      some ([Msg.generation_complete], 1, none) := rfl

/-- C5 amended: the handler emits the completion notification immediately
when generation returns, without waiting for the routing queue to drain
(see the counterexample); the relay task then keeps publishing: after
enough poll iterations, every record still queued is emitted, in queue
order, after whatever was already on the stream — events are delivered
late, not lost. -/
theorem C5_relay_drains_after_complete (st : ServerState) (n : ℕ)
    (h : st.routing_queue.length ≤ n) :
    relay_run n st = { st with
      routing_queue := []
      emitted := st.emitted ++ st.routing_queue.map Msg.routing_update } := by
  induction n generalizing st with
  | zero =>
    have hq : st.routing_queue = [] :=
      List.eq_nil_of_length_eq_zero (Nat.le_zero.mp h)
    cases st
    simp_all [relay_run]
  | succ n ih =>
    cases hrq : st.routing_queue with
    | nil =>
      have := ih st (by simp [hrq])
      cases st
      simp_all [relay_run, relay_step]
    | cons d rest =>
      have hlen : rest.length ≤ n := by
        have := h
        rw [hrq] at this
        simpa using this
      simp only [relay_run, relay_step, hrq]
      rw [ih _ hlen]
      simp [hrq, List.append_assoc]

/-- Witness for C5: one relay iteration drains a one-record queue. -/
theorem C5_relay_drains_after_complete_witness :
    stQ.routing_queue.length ≤ 1 ∧
    relay_run 1 stQ = { stQ with
      routing_queue := []
      emitted := stQ.emitted ++ stQ.routing_queue.map Msg.routing_update } :=
  ⟨by decide, C5_relay_drains_after_complete stQ 1 (by decide)⟩

/-- C7 counterexample: a `/generate` request arriving while a session is
active (its two probes attached) is not rejected — no busy check and no
`SessionBusyError` exist — and its start phase succeeds with no error,
installing two further probes next to the active session's. -/
theorem C7_counterexample :
    generate_start "qwen-1.5-moe-a2.7b" (some qwenModel) stBusy =
      ({ stBusy with
        attached := [HookKind.token, HookKind.router,
                     HookKind.token, HookKind.router] }, none) := rfl

/-- C7 amended: a second request while a session is active is never
rejected with a busy error — no busy check exists and the active session's
probes are left in place as a prefix of the attached list — but what the
start phase then does depends on the model: for a Qwen session (whose
structure matches the hard-coded hook path) it succeeds and installs both
further probes; for a Mixtral session it installs the token probe and then
fails with an `AttributeError` from resolving `layers[0].mlp.gate`.  In
neither case is a `SessionBusyError` produced or the request rejected
before instrumenting the model. -/
theorem C7_no_busy_rejection (st : ServerState) :
    generate_start "qwen-1.5-moe-a2.7b" (some qwenModel) st =
      ({ st with attached := st.attached ++ [HookKind.token, HookKind.router] },
        none) ∧
    generate_start "mixtral-8x7b" (some mixtralModel) st =
      ({ st with attached := st.attached ++ [HookKind.token] },
        some ServerErr.attributeError) := by
  constructor
  · have h1 : generate_start "qwen-1.5-moe-a2.7b" (some qwenModel) st =
        ({ st with
          attached := (st.attached ++ [HookKind.token]) ++ [HookKind.router] },
          none) := rfl
    rw [h1, List.append_assoc]
    exact rfl
  · rfl

/-- C8: for every emitted routing record and every token row within it,
the number of selected expert indices equals the configured top-k of the
architecture the session was started for, and is never derived from the
router output data.  Concretely: a Qwen session emits one record per step
whose every token row carries exactly 4 indices — the constant passed as
`top_k=4`, equal to the Qwen configuration's top-k — independent of the
router output's values (the hypothesis `4 ≤ row.length` is `torch.topk`'s
precondition; Qwen rows have 60 experts); and a Mixtral session emits no
records at all (its start fails at hook registration, before any
capture), so the claim holds for every record of the Mixtral
configuration (top-k 2) vacuously. -/
theorem C8_topk_matches_config (e : ℚ → ℚ)
    (tok : Option (ℤ → Option String)) (steps : List ForwardStep)
    (st : ServerState) (hq : st.tokens_queue = [])
    (hrows : ∀ fs ∈ steps, ∀ row ∈ fs.router_output, 4 ≤ row.length) :
    (∃ st', generate_text e tok "qwen-1.5-moe-a2.7b" (some qwenModel) steps
          false st = some (st', none) ∧
      st'.routing_queue = st.routing_queue ++ steps.map (stepRecord e tok 0) ∧
      ∀ rd ∈ steps.map (stepRecord e tok 0), ∀ l ∈ rd.selected_experts,
        l.length = 4) ∧
    (MODEL_CONFIGS.lookup "qwen-1.5-moe-a2.7b").map ModelConfig.top_k =
      some 4 ∧
    generate_text e tok "mixtral-8x7b" (some mixtralModel) steps false st =
      some ({ st with attached := st.attached ++ [HookKind.token] },
        some ServerErr.attributeError) ∧
    (MODEL_CONFIGS.lookup "mixtral-8x7b").map ModelConfig.top_k = some 2 := by
  have hstart : generate_start "qwen-1.5-moe-a2.7b" (some qwenModel) st =
      ({ st with attached := st.attached ++ [HookKind.token, HookKind.router] },
        none) := by
    have h1 : generate_start "qwen-1.5-moe-a2.7b" (some qwenModel) st =
        ({ st with
          attached := (st.attached ++ [HookKind.token]) ++ [HookKind.router] },
          none) := rfl
    rw [h1, List.append_assoc]
    exact rfl
  have hrun := run_steps_emits e tok steps
    { st with attached := st.attached ++ [HookKind.token, HookKind.router] } hq
  have hgen : generate_text e tok "qwen-1.5-moe-a2.7b" (some qwenModel) steps
      false st = some ({ st with
        routing_queue := st.routing_queue ++ steps.map (stepRecord e tok 0)
        emitted := st.emitted ++ [Msg.generation_complete]
        attached := (((st.attached ++ [HookKind.token, HookKind.router]).erase
          HookKind.token).erase HookKind.router) }, none) := by
    simp only [generate_text, hstart]
    rw [hrun]
    exact rfl
  refine ⟨⟨_, hgen, rfl, ?_⟩, rfl, rfl, rfl⟩
  intro rd hrd
  obtain ⟨fs, hfs, hrfl⟩ := List.mem_map.mp hrd
  subst hrfl
  intro l hl
  simp only [stepRecord, process_router_logits, List.mem_map] at hl
  obtain ⟨row, hrow, hrfl⟩ := hl
  subst hrfl
  rw [topkIdx_length, softmax_length]
  exact min_eq_left (hrows fs hfs row hrow)

/-- Witness for C8 at a concrete one-step Qwen session and the failing
Mixtral start. -/
theorem C8_topk_matches_config_witness :
    initState.tokens_queue = [] ∧
    (∀ fs ∈ [step1], ∀ row ∈ fs.router_output, 4 ≤ row.length) ∧
    ((∃ st', generate_text posMono none "qwen-1.5-moe-a2.7b" (some qwenModel)
          [step1] false initState = some (st', none) ∧
      st'.routing_queue = initState.routing_queue ++
        [step1].map (stepRecord posMono none 0) ∧
      ∀ rd ∈ [step1].map (stepRecord posMono none 0),
        ∀ l ∈ rd.selected_experts, l.length = 4) ∧
    (MODEL_CONFIGS.lookup "qwen-1.5-moe-a2.7b").map ModelConfig.top_k =
      some 4 ∧
    generate_text posMono none "mixtral-8x7b" (some mixtralModel) [step1]
        false initState =
      some ({ initState with attached := initState.attached ++ [HookKind.token] },
        some ServerErr.attributeError) ∧
    (MODEL_CONFIGS.lookup "mixtral-8x7b").map ModelConfig.top_k = some 2) :=
  ⟨rfl, by decide,
   C8_topk_matches_config posMono none [step1] initState rfl (by decide)⟩

/-- C9: the start of a new session leaves a residual token batch from a
previous session in the pending queue: `tokens_queue.empty()` only returns
a Bool (which the code discards) and clears nothing, so immediately after
the start step the queue still holds the stale batch. -/
theorem C9_residual_queue_survives_start :
    generate_start "qwen-1.5-moe-a2.7b" (some qwenModel) stResidual =
      ({ stResidual with
        attached := [HookKind.token, HookKind.router] }, none) ∧
    ({ stResidual with
        attached := [HookKind.token, HookKind.router] } : ServerState).tokens_queue
      = [[5]] :=
  ⟨rfl, rfl⟩

end Moeviz
